import Mathlib

/-!
Shallow embedding of `virtinst/VirtualNetworkInterface.py` (class
`VirtualNetworkInterface` and the module helper `_random_mac`).

Modelling conventions:
* Python `None`-or-string values become `Option String`; Python truthiness of
  such a value (`if self._macaddr:`) is the `truthy` predicate below
  (`None` and `""` are falsy).
* The libvirt connection is the record `Conn`: it carries the driver type
  (`conn.getType()`), the predictable-test flag
  (`_virtinst__fake_conn_predictable`), the guest list returned by
  `fetch_all_guests()` (each guest with its activity flag and the `macaddr`
  of each of its `interface` devices), the defined and active network name
  lists (`networkLookupByName` / `listNetworks`), and the host default
  bridge (external `util.default_bridge` collaborator).
* The process-global pseudo-random source used by `random.randint` is the
  record `RandState`: an infinite stream of byte triples plus a cursor;
  every call of `_random_mac` consumes one triple.  Stateful methods thread
  a `RandState` (and return the possibly updated object).
* Methods that can raise (`ValueError`) return `Except String _`.
* The object always carries a connection.  The source additionally tolerates
  a missing connection in `set_network` (skipping validation) and in
  `_is_net_active`; no claim exercises that path.
-/

namespace VNet

/-- One guest VM as returned by `conn.fetch_all_guests()`: whether it is
running, and the `macaddr` value of each of its `interface` devices
(absent when the XML has no mac). -/
structure Guest where
  active : Bool
  nicMacs : List (Option String)
deriving DecidableEq

/-- The libvirt connection collaborator (see module doc above). -/
structure Conn where
  driverType : String
  predictable : Bool
  guests : List Guest
  definedNetworks : List String
  activeNetworks : List String
  defaultBridge : Option String
deriving DecidableEq

/-- The process-global random source consumed by `random.randint` in
`_random_mac`: a stream of byte triples and a cursor. -/
structure RandState where
  stream : Nat → Nat × Nat × Nat
  cursor : Nat

/-- Python truthiness of an optional string: `None` and `""` are falsy. -/
def truthy : Option String → Bool
  | none => false
  | some s => !(s == "")

/-- Python `"%s" % v` for an optional string: `None` prints as `"None"`. -/
def pyStr : Option String → String
  | none => "None"
  | some s => s

/-- Lower-case hex digit, as produced by Python `"%02x"`. -/
def hexDigitChar (n : Nat) : Char :=
  if n < 10 then Char.ofNat (48 + n) else Char.ofNat (87 + n)

/-- Python `"%02x" % x` for a byte value (reduced mod 256). -/
def byteHex (n : Nat) : String :=
  String.mk [hexDigitChar ((n % 256) / 16), hexDigitChar (n % 16)]

/-- Python `str.lower` on one character (the data compared here is ASCII). -/
def lowerChar (c : Char) : Char :=
  if 65 ≤ c.toNat ∧ c.toNat ≤ 90 then Char.ofNat (c.toNat + 32) else c

/-- Python `str.lower` (ASCII range, which covers driver names and MACs). -/
def lowerStr (s : String) : String := String.mk (s.toList.map lowerChar)

/-- The OUI table of `_random_mac`: keys `"xen"` and `"qemu"` (looked up with
`conn.getType().lower()`), `KeyError` falling back to the xen prefix. -/
def ouiFor (driver : String) : List Nat :=
  if lowerStr driver == "xen" then [0x00, 0x16, 0x3E]
  else if lowerStr driver == "qemu" then [0x52, 0x54, 0x00]
  else [0x00, 0x16, 0x3E]

/-- `_random_mac(conn)` applied to one triple of random bytes. -/
def randomMac (conn : Conn) (r : Nat × Nat × Nat) : String :=
  String.intercalate ":"
    ((ouiFor conn.driverType ++ [r.1 % 256, r.2.1 % 256, r.2.2 % 256]).map byteHex)

/-- The collision description built by `is_conflict_net`. -/
def conflictMsg (searchmac : String) : String :=
  "The MAC address '" ++ searchmac ++ "' is in use by another virtual machine."

/-- One nic comparison inside `is_conflict_net`:
`nicmac = nic.macaddr or ""` followed by a case-insensitive comparison. -/
def nicMatches (searchmac : String) (nicmac : Option String) : Bool :=
  lowerStr (nicmac.getD "") == lowerStr searchmac

/-- `VirtualNetworkInterface.is_conflict_net(conn, searchmac)`.  Note that the
guest's activity flag is never consulted: every match yields `(true, msg)`. -/
def is_conflict_net (conn : Conn) (searchmac : Option String) :
    Bool × Option String :=
  match searchmac with
  | none => (false, none)
  | some sm =>
    if conn.guests.any (fun vm => vm.nicMacs.any (nicMatches sm)) then
      (true, some (conflictMsg sm))
    else
      (false, none)

/-- The retry loop of `generate_mac` (`for ignore in range(256)`), with the
remaining iteration count as fuel; each iteration consumes one random triple
and keeps the address when `ret[1] is None`. -/
def generate_mac_loop (conn : Conn) (rs : RandState) : Nat → Option String × RandState
  | 0 => (none, rs)
  | Nat.succ n =>
    let mac := randomMac conn (rs.stream rs.cursor)
    let rs' : RandState := { rs with cursor := rs.cursor + 1 }
    if (is_conflict_net conn (some mac)).2 = none then (some mac, rs')
    else generate_mac_loop conn rs' n

/-- `VirtualNetworkInterface.generate_mac(conn)`: the predictable-test hack,
then up to 256 synthesis-plus-conflict-check attempts, `None` on exhaustion. -/
def generate_mac (conn : Conn) (rs : RandState) : Option String × RandState :=
  if conn.predictable then (some "00:11:22:33:44:55", rs)
  else generate_mac_loop conn rs 256

/-- The candidate that attempt `i` (counting from the current cursor) of the
generation loop would synthesize and check, and whether it conflicts. -/
def conflictAt (conn : Conn) (rs : RandState) (i : Nat) : Bool :=
  ((is_conflict_net conn (some (randomMac conn (rs.stream (rs.cursor + i))))).2).isSome

def TYPE_BRIDGE : String := "bridge"
def TYPE_VIRTUAL : String := "network"
def TYPE_USER : String := "user"
def TYPE_ETHERNET : String := "ethernet"
def TYPE_DIRECT : String := "direct"

def network_types : List String :=
  [TYPE_BRIDGE, TYPE_VIRTUAL, TYPE_USER, TYPE_ETHERNET, TYPE_DIRECT]

/-- The per-object state of a `VirtualNetworkInterface`.  `isParse` is
`self._is_parse()`; `_default_bridge` is the tri-state default-bridge cache
(`none` = not yet looked up, `some none` = cached `False`, `some (some b)` =
cached name). -/
structure NetIface where
  conn : Conn
  isParse : Bool
  _network : Option String := none
  _bridge : Option String := none
  _macaddr : Option String := none
  _type : Option String := none
  _model : Option String := none
  _target_dev : Option String := none
  _source_dev : Option String := none
  _source_mode : String := "vepa"
  _random_mac : Option String := none
  _default_bridge : Option (Option String) := none
deriving DecidableEq

/-- `get_type`. -/
def get_type (st : NetIface) : Option String := st._type

/-- `set_type`: rejects values outside `network_types` with `ValueError`. -/
def set_type (st : NetIface) (val : String) : Except String NetIface :=
  if network_types.contains val then Except.ok { st with _type := some val }
  else Except.error ("Unknown network type " ++ val)

/-- Modelled from the spec: `util.validate_macaddr` (the `util` module is not
under src/).  Accepts exactly strings of 6 colon-separated 2-hex-digit octets,
case-insensitive; an absent value passes (the constructor stores `macaddr=None`
through this path). -/
def isHexDigitChar (c : Char) : Bool :=
  c.isDigit || (97 ≤ c.toNat && c.toNat ≤ 102) || (65 ≤ c.toNat && c.toNat ≤ 70)

/-- Modelled from the spec: split a character list at each colon. -/
def splitColons : List Char → List (List Char)
  | [] => [[]]
  | c :: cs =>
    if c = ':' then [] :: splitColons cs
    else
      match splitColons cs with
      | [] => [[c]]
      | p :: ps => (c :: p) :: ps

/-- Modelled from the spec: one octet of the MAC format (2 hex digits). -/
def isOctet (p : List Char) : Bool :=
  p.length == 2 && p.all isHexDigitChar

/-- Modelled from the spec: the MAC-format check performed by
`util.validate_macaddr` (see `isHexDigitChar`). -/
def validate_macaddr : Option String → Bool
  | none => true
  | some s =>
    (splitColons s.toList).length == 6 && (splitColons s.toList).all isOctet

/-- `set_macaddr`: validates the format, then stores the value. -/
def set_macaddr (st : NetIface) (val : Option String) : Except String NetIface :=
  if validate_macaddr val then Except.ok { st with _macaddr := val }
  else Except.error "invalid MAC address"

/-- `get_network`. -/
def get_network (st : NetIface) : Option String := st._network

/-- `set_network`: a non-`None` name must exist on the connection
(`networkLookupByName`) and be active (`listNetworks().count(...)`), else
`ValueError`.  (The source skips both checks when the object has no
connection; here a connection is always present.) -/
def set_network (st : NetIface) (newnet : Option String) : Except String NetIface :=
  match newnet with
  | some n =>
    if st.conn.definedNetworks.contains n then
      if st.conn.activeNetworks.contains n then
        Except.ok { st with _network := newnet }
      else
        Except.error ("Virtual network '" ++ n ++ "' has not been started.")
    else
      Except.error ("Virtual network '" ++ n ++ "' does not exist.")
  | none => Except.ok { st with _network := none }

/-- Modelled from the spec: `util.default_bridge` is an external collaborator
(not under src/) looking up the host's default bridge device; the connection
record carries its answer as `defaultBridge`. -/
def default_bridge_lookup (conn : Conn) : Option String := conn.defaultBridge

/-- `_generate_default_bridge`: one-time lookup with a tri-state cache;
returns `ret or None`. -/
def _generate_default_bridge (st : NetIface) : Option String × NetIface :=
  match st._default_bridge with
  | some cached => (cached, { st with _default_bridge := some cached })
  | none =>
    let ret := default_bridge_lookup st.conn
    (ret, { st with _default_bridge := some ret })

/-- `get_bridge`: falls back to the default bridge for fresh bridge-type
objects with no bridge set. -/
def get_bridge (st : NetIface) : Option String × NetIface :=
  if !st.isParse && !truthy st._bridge && get_type st == some TYPE_BRIDGE then
    _generate_default_bridge st
  else (st._bridge, st)

/-- `set_bridge`. -/
def set_bridge (st : NetIface) (val : Option String) : NetIface :=
  { st with _bridge := val }

/-- `get_model` / `set_model`. -/
def get_model (st : NetIface) : Option String := st._model

def set_model (st : NetIface) (val : Option String) : NetIface :=
  { st with _model := val }

/-- `get_target_dev` / `set_target_dev`. -/
def get_target_dev (st : NetIface) : Option String := st._target_dev

def set_target_dev (st : NetIface) (val : Option String) : NetIface :=
  { st with _target_dev := val }

/-- `get_source_dev` / `set_source_dev`. -/
def get_source_dev (st : NetIface) : Option String := st._source_dev

def set_source_dev (st : NetIface) (val : Option String) : NetIface :=
  { st with _source_dev := val }

/-- `get_macaddr`: explicit or parse-mode value wins; otherwise the cached
generated address if truthy, else a fresh `generate_mac` whose result is
stored in `_random_mac`. -/
def get_macaddr (st : NetIface) (rs : RandState) :
    Option String × NetIface × RandState :=
  if truthy st._macaddr || st.isParse then (st._macaddr, st, rs)
  else if truthy st._random_mac then (st._random_mac, st, rs)
  else
    let g := generate_mac st.conn rs
    (g.1, { st with _random_mac := g.1 }, g.2)

/-- `get_source`: kind-aware dispatch, with the permissive
`network or bridge or source_dev` fallback (Python `or` short-circuits on the
first truthy value). -/
def get_source (st : NetIface) : Option String × NetIface :=
  if get_type st == some TYPE_VIRTUAL then (st._network, st)
  else if get_type st == some TYPE_BRIDGE then get_bridge st
  else if get_type st == some TYPE_ETHERNET || get_type st == some TYPE_DIRECT then
    (st._source_dev, st)
  else if get_type st == some TYPE_USER then (none, st)
  else
    if truthy st._network then (st._network, st)
    else
      let b := get_bridge st
      if truthy b.1 then (b.1, b.2) else (b.2._source_dev, b.2)

/-- `set_source`: kind-aware dispatch; no known kind means a silent no-op. -/
def set_source (st : NetIface) (newsource : Option String) : Except String NetIface :=
  if get_type st == some TYPE_VIRTUAL then set_network st newsource
  else if get_type st == some TYPE_BRIDGE then Except.ok (set_bridge st newsource)
  else if get_type st == some TYPE_ETHERNET || get_type st == some TYPE_DIRECT then
    Except.ok (set_source_dev st newsource)
  else Except.ok st

/-- `__init__` for fresh (non-parse) construction: assigns type, macaddr,
bridge, source_dev (from the bridge argument), network and model through the
property setters, then raises if the type is virtual and no network name was
given. -/
def init (conn : Conn) (macaddr : Option String) (ty : String)
    (bridge : Option String) (network : Option String) (model : Option String) :
    Except String NetIface := do
  let st0 : NetIface := { conn := conn, isParse := false }
  let st1 ← set_type st0 ty
  let st2 ← set_macaddr st1 macaddr
  let st3 := set_bridge st2 bridge
  let st4 := set_source_dev st3 bridge
  let st5 ← set_network st4 network
  let st6 := set_model st5 model
  if get_type st6 == some TYPE_VIRTUAL && network.isNone then
    Except.error "A network name was not provided"
  else
    Except.ok st6

/-- Outcome of `setup`: normal return, `logging.warning` then return, or a
raised `RuntimeError`. -/
inductive SetupResult where
  | ok : SetupResult
  | warned : String → SetupResult
  | fatal : String → SetupResult
deriving DecidableEq

/-- `setup(meter=None)`: re-check a present MAC against the connection.
(The second property read inside the call returns the value of the first
read unchanged, since a truthy read is stable; the model reuses it.) -/
def setup (st : NetIface) (rs : RandState) : SetupResult × NetIface × RandState :=
  let r := get_macaddr st rs
  if truthy r.1 then
    let c := is_conflict_net r.2.1.conn r.1
    match c.2 with
    | none => (SetupResult.ok, r.2.1, r.2.2)
    | some m =>
      if c.1 = false then (SetupResult.warned m, r.2.1, r.2.2)
      else (SetupResult.fatal m, r.2.1, r.2.2)
  else (SetupResult.ok, r.2.1, r.2.2)

/-- The `src_xml` local of `_get_xml_config` (reading the bridge property can
touch the default-bridge cache, hence the returned state). -/
def src_xml (st : NetIface) : String × NetIface :=
  if get_type st == some TYPE_BRIDGE then
    let b := get_bridge st
    ("      <source bridge='" ++ pyStr b.1 ++ "'/>\n", b.2)
  else if get_type st == some TYPE_VIRTUAL then
    ("      <source network='" ++ pyStr st._network ++ "'/>\n", st)
  else if get_type st == some TYPE_ETHERNET && truthy st._source_dev then
    ("      <source dev='" ++ pyStr st._source_dev ++ "'/>\n", st)
  else if get_type st == some TYPE_DIRECT && truthy st._source_dev then
    ("      <source dev='" ++ pyStr st._source_dev ++ "' mode='"
      ++ st._source_mode ++ "'/>\n", st)
  else ("", st)

/-- `_get_xml_config`: header, kind-dependent source element, unconditional
mac element (a property read that can trigger lazy generation), then target
and model elements when truthy. -/
def _get_xml_config (st : NetIface) (rs : RandState) :
    String × NetIface × RandState :=
  let s := src_xml st
  let model_xml :=
    if truthy s.2._model then
      "      <model type='" ++ pyStr s.2._model ++ "'/>\n"
    else ""
  let target_xml :=
    if truthy s.2._target_dev then
      "      <target dev='" ++ pyStr s.2._target_dev ++ "'/>\n"
    else ""
  let m := get_macaddr s.2 rs
  ("    <interface type='" ++ pyStr (get_type s.2) ++ "'>\n"
    ++ s.1
    ++ "      <mac address='" ++ pyStr m.1 ++ "'/>\n"
    ++ target_xml
    ++ model_xml
    ++ "    </interface>", m.2.1, m.2.2)

/-- Strip the per-line indentation and the line breaks of an XML fragment
(the claim's "ignoring indentation/whitespace"). -/
def stripLinesAux : List Char → Bool → List Char
  | [], _ => []
  | c :: cs, atStart =>
    if c = '\n' then stripLinesAux cs true
    else if atStart && c = ' ' then stripLinesAux cs true
    else c :: stripLinesAux cs false

def stripLines (s : String) : String :=
  String.mk (stripLinesAux s.toList true)

/-! Concrete fixtures used by counterexamples and witnesses. -/

/-- A qemu connection with no guests and no networks. -/
def conn0 : Conn :=
  { driverType := "qemu", predictable := false, guests := [],
    definedNetworks := [], activeNetworks := [], defaultBridge := none }

/-- A predictable-test connection (`_virtinst__fake_conn_predictable`). -/
def connP : Conn :=
  { driverType := "QEMU", predictable := true, guests := [],
    definedNetworks := [], activeNetworks := [], defaultBridge := none }

/-- A connection whose only guest is inactive and owns the MAC
`aa:bb:cc:dd:ee:ff`. -/
def conn1 : Conn :=
  { driverType := "qemu", predictable := false,
    guests := [⟨false, [some "aa:bb:cc:dd:ee:ff"]⟩],
    definedNetworks := [], activeNetworks := [], defaultBridge := none }

/-- A connection whose only guest has one interface with no MAC recorded. -/
def conn3 : Conn :=
  { driverType := "qemu", predictable := false, guests := [⟨true, [none]⟩],
    definedNetworks := [], activeNetworks := [], defaultBridge := none }

/-- A connection knowing exactly one virtual network, `default`, active. -/
def conn7 : Conn :=
  { driverType := "qemu", predictable := false, guests := [],
    definedNetworks := ["default"], activeNetworks := ["default"],
    defaultBridge := none }

/-- A qemu connection whose only guest owns `52:54:00:00:00:00`. -/
def connAll : Conn :=
  { driverType := "qemu", predictable := false,
    guests := [⟨true, [some "52:54:00:00:00:00"]⟩],
    definedNetworks := [], activeNetworks := [], defaultBridge := none }

/-- A constant random stream producing the bytes `00:00:00`. -/
def rs0 : RandState := { stream := fun _ => (0, 0, 0), cursor := 0 }

/-- A random stream whose first 256 triples are `00:00:00` (conflicting with
`connAll`'s guest) and whose later triples are `01:01:01`. -/
def rs4 : RandState :=
  { stream := fun i => if i < 256 then (0, 0, 0) else (1, 1, 1), cursor := 0 }

/-- An interface on `conn1` carrying the inactive guest's MAC. -/
def st1 : NetIface :=
  { conn := conn1, isParse := false, _macaddr := some "aa:bb:cc:dd:ee:ff",
    _type := some TYPE_BRIDGE }

/-- A fresh interface on `connAll` with no explicit MAC. -/
def st4 : NetIface := { conn := connAll, isParse := false }

/-- A fresh interface on the predictable-test connection. -/
def stP : NetIface := { conn := connP, isParse := false }

/-- The object of the C6 round-trip (the result of constructing with
kind=bridge, bridge `br0`, explicit MAC, model `virtio`). -/
def stC6 : NetIface :=
  { conn := conn0, isParse := false, _macaddr := some "52:54:00:ab:cd:ef",
    _type := some TYPE_BRIDGE, _bridge := some "br0",
    _source_dev := some "br0", _model := some "virtio" }

/-- A user-mode interface with an explicit MAC and no model/target. -/
def stT : NetIface :=
  { conn := conn0, isParse := false, _macaddr := some "aa:aa:aa:aa:aa:aa",
    _type := some TYPE_USER }

/-- A virtual-network interface on `conn7` bound to network `default`. -/
def st7 : NetIface :=
  { conn := conn7, isParse := false, _type := some TYPE_VIRTUAL,
    _network := some "default" }

/-- The object produced by `init conn0 none TYPE_USER (some "br0") none none`. -/
def stC9 : NetIface :=
  { conn := conn0, isParse := false, _bridge := some "br0",
    _source_dev := some "br0", _type := some TYPE_USER }

/-- A transitional object whose type matches no known kind (as during parse
construction, where `_type` stays `None`). -/
def stF : NetIface :=
  { conn := conn0, isParse := false, _network := some "",
    _bridge := some "virbr0", _source_dev := some "eth0", _type := none }

/-! General lemmas about the MAC generation loop and the lazy MAC cache. -/

theorem isSome_true_ne_none {o : Option String} (h : o.isSome = true) :
    o ≠ none := by
  cases o with
  | none => cases h
  | some v => intro hc; cases hc

theorem isSome_false_eq_none {o : Option String} (h : o.isSome = false) :
    o = none := by
  cases o with
  | none => rfl
  | some v => cases h

theorem conflictAt_shift (conn : Conn) (rs : RandState) (i : Nat) :
    conflictAt conn { rs with cursor := rs.cursor + 1 } i
      = conflictAt conn rs (i + 1) := by
  have h : rs.cursor + 1 + i = rs.cursor + (i + 1) := by omega
  simp [conflictAt, h]

/-- If every one of the next `n` candidates conflicts, the loop exhausts its
fuel, returns `none`, and consumes exactly `n` random triples. -/
theorem generate_mac_loop_all_conflict (conn : Conn) :
    ∀ (n : Nat) (rs : RandState),
      (∀ i, i < n → conflictAt conn rs i = true) →
      generate_mac_loop conn rs n = (none, { rs with cursor := rs.cursor + n }) := by
  intro n
  induction n with
  | zero => intro rs _; simp [generate_mac_loop]
  | succ n ih =>
    intro rs h
    have h0 : conflictAt conn rs 0 = true := h 0 (Nat.succ_pos n)
    have hc : (is_conflict_net conn (some (randomMac conn (rs.stream rs.cursor)))).2 ≠ none := by
      apply isSome_true_ne_none
      simpa [conflictAt] using h0
    have hrec := ih { rs with cursor := rs.cursor + 1 } (fun i hi => by
      rw [conflictAt_shift]
      exact h (i + 1) (Nat.succ_lt_succ hi))
    have harith : rs.cursor + 1 + n = rs.cursor + (n + 1) := by omega
    rw [generate_mac_loop, if_neg hc, hrec]
    simp [harith]

/-- If the first `j` candidates conflict and candidate `j` does not
(`j` below the fuel), the loop returns candidate `j` after consuming
`j + 1` random triples. -/
theorem generate_mac_loop_first_success (conn : Conn) :
    ∀ (n j : Nat) (rs : RandState), j < n →
      (∀ i, i < j → conflictAt conn rs i = true) →
      conflictAt conn rs j = false →
      generate_mac_loop conn rs n =
        (some (randomMac conn (rs.stream (rs.cursor + j))),
         { rs with cursor := rs.cursor + j + 1 }) := by
  intro n
  induction n with
  | zero => intro j rs hj; exact absurd hj (Nat.not_lt_zero j)
  | succ n ih =>
    intro j rs hj hconf hok
    cases j with
    | zero =>
      have hc : (is_conflict_net conn (some (randomMac conn (rs.stream rs.cursor)))).2 = none := by
        apply isSome_false_eq_none
        simpa [conflictAt] using hok
      rw [generate_mac_loop, if_pos hc]
      simp
    | succ j' =>
      have h0 : conflictAt conn rs 0 = true := hconf 0 (Nat.succ_pos j')
      have hc : (is_conflict_net conn (some (randomMac conn (rs.stream rs.cursor)))).2 ≠ none := by
        apply isSome_true_ne_none
        simpa [conflictAt] using h0
      have hrec := ih j' { rs with cursor := rs.cursor + 1 }
        (Nat.lt_of_succ_lt_succ hj)
        (fun i hi => by
          rw [conflictAt_shift]
          exact hconf (i + 1) (Nat.succ_lt_succ hi))
        (by rw [conflictAt_shift]; exact hok)
      have harith : rs.cursor + 1 + j' = rs.cursor + (j' + 1) := by omega
      rw [generate_mac_loop, if_neg hc, hrec]
      simp [harith]

/-- A fresh read (no explicit MAC, not parsing, nothing cached) runs
`generate_mac` and stores its result. -/
theorem get_macaddr_fresh (st : NetIface) (rs : RandState)
    (h1 : truthy st._macaddr = false) (h2 : st.isParse = false)
    (h3 : truthy st._random_mac = false) :
    get_macaddr st rs =
      ((generate_mac st.conn rs).1,
       { st with _random_mac := (generate_mac st.conn rs).1 },
       (generate_mac st.conn rs).2) := by
  simp [get_macaddr, h1, h2, h3]

/-- A read with a truthy cached generated address returns it unchanged. -/
theorem get_macaddr_cached (st : NetIface) (rs : RandState)
    (h1 : truthy st._macaddr = false) (h2 : st.isParse = false)
    (h3 : truthy st._random_mac = true) :
    get_macaddr st rs = (st._random_mac, st, rs) := by
  simp [get_macaddr, h1, h2, h3]

/-- On `connAll` with the `rs4` stream, every one of the first 256 candidates
collides with the guest's `52:54:00:00:00:00`. -/
theorem connAll_conflict_lt (i : Nat) (hi : i < 256) :
    conflictAt connAll rs4 i = true := by
  have hs : rs4.stream (rs4.cursor + i) = (0, 0, 0) := by
    simp [rs4, hi]
  simp only [conflictAt, hs]
  decide

/-- First generation attempt on `connAll`/`rs4`: 256 conflicting candidates,
then exhaustion. -/
theorem generate_connAll_rs4 :
    generate_mac connAll rs4 = (none, { rs4 with cursor := rs4.cursor + 256 }) := by
  rw [generate_mac, if_neg (by decide)]
  exact generate_mac_loop_all_conflict connAll 256 rs4 connAll_conflict_lt

/-- Second generation attempt on `connAll` (cursor at 256): the very first
candidate `52:54:00:01:01:01` is free. -/
theorem generate_connAll_rs256 :
    generate_mac connAll { rs4 with cursor := rs4.cursor + 256 } =
      (some "52:54:00:01:01:01",
       { rs4 with cursor := rs4.cursor + 256 + 1 }) := by
  rw [generate_mac, if_neg (by decide)]
  have h := generate_mac_loop_first_success connAll 256 0
    { rs4 with cursor := rs4.cursor + 256 }
    (by omega) (fun i hi => absurd hi (Nat.not_lt_zero i)) (by decide)
  rw [h]
  rfl

/-- A successful fresh construction yields exactly the record assembled by the
constructor's property assignments. -/
theorem init_ok_shape (c : Conn) (mac : Option String) (ty : String)
    (b nw mdl : Option String) (st : NetIface)
    (h : init c mac ty b nw mdl = Except.ok st) :
    st = { conn := c, isParse := false, _network := nw, _bridge := b,
           _macaddr := mac, _type := some ty, _model := mdl,
           _source_dev := b } := by
  simp only [init, set_type, set_macaddr, set_bridge, set_source_dev,
    set_network, set_model, get_type, bind, Except.bind] at h
  by_cases h1 : network_types.contains ty = true
  · simp only [h1, if_true] at h
    by_cases h2 : validate_macaddr mac = true
    · simp only [h2, if_true] at h
      cases nw with
      | none =>
        simp only [] at h
        split at h
        · cases h
        · cases h
          rfl
      | some n =>
        by_cases h3 : c.definedNetworks.contains n = true
        · simp only [h3, if_true] at h
          by_cases h4 : c.activeNetworks.contains n = true
          · simp only [h4, if_true] at h
            split at h
            · cases h
            · cases h
              rfl
          · simp only [eq_false_of_ne_true h4, if_false] at h
            cases h
        · simp only [eq_false_of_ne_true h3, if_false] at h
          cases h
    · simp only [eq_false_of_ne_true h2, if_false] at h
      cases h
  · simp only [eq_false_of_ne_true h1, if_false] at h
    cases h

/-- Reading the bridge property never changes any field other than the
default-bridge cache. -/
theorem get_bridge_state (st : NetIface) :
    (get_bridge st).2 = st ∨
      (get_bridge st).2 = { st with _default_bridge := some st.conn.defaultBridge } := by
  unfold get_bridge _generate_default_bridge
  split
  · cases hd : st._default_bridge with
    | none =>
      right
      rfl
    | some cached =>
      left
      show ({ st with _default_bridge := some cached } : NetIface) = st
      rw [← hd]
  · left; rfl

/-- The `src_xml` computation never changes any field other than the
default-bridge cache. -/
theorem src_xml_state (st : NetIface) :
    (src_xml st).2 = st ∨
      (src_xml st).2 = { st with _default_bridge := some st.conn.defaultBridge } := by
  unfold src_xml
  split
  · exact get_bridge_state st
  · split
    · left; rfl
    · split
      · left; rfl
      · split
        · left; rfl
        · left; rfl

/-! Claim theorems. -/

/-- C1 (code bug): both the spec and the source's own docstring describe a MAC
collision with an inactive guest as a non-fatal warning, but `is_conflict_net`
never consults the guest's activity flag and returns a fatal result for every
collision, so `setup` raises even when the only colliding guest is inactive.
Moreover no `(False, msg)` result is ever produced, so `setup`'s
`logging.warning` branch is unreachable. -/
theorem setup_inactive_collision_is_fatal :
    ((setup st1 rs0).1 = SetupResult.fatal (conflictMsg "aa:bb:cc:dd:ee:ff") ∧
      conn1.guests.all (fun g => g.active == false) = true) ∧
    (∀ (c : Conn) (sm : Option String),
      (is_conflict_net c sm).1 = false → (is_conflict_net c sm).2 = none) := by
  refine ⟨⟨by decide, by decide⟩, ?_⟩
  intro c sm h
  cases sm with
  | none => rfl
  | some s =>
    by_cases hc : (c.guests.any fun vm => vm.nicMacs.any (nicMatches s)) = true
    · simp [is_conflict_net, hc] at h
    · simp [is_conflict_net, hc]

/-- C1 witness: a conflict check reporting a non-fatal first component indeed
carries no description (instantiated on the empty connection). -/
theorem setup_inactive_collision_is_fatal_witness :
    (is_conflict_net conn0 none).2 = none :=
  setup_inactive_collision_is_fatal.2 conn0 none rfl

/-- C3 counterexample: an empty-string candidate is not short-circuited; on a
connection whose guest has an interface without a MAC it yields a fatal
conflict rather than `(false, none)`. -/
theorem empty_candidate_not_short_circuited :
    is_conflict_net conn3 (some "") = (true, some (conflictMsg "")) := by
  decide

/-- C3 (amended): a `None` candidate short-circuits to no conflict; for a
string candidate (including the empty string, which is compared like any
other and matches interfaces whose stored MAC is absent or empty) the check
is fatal exactly when some guest has an interface whose MAC —
absent read as "" — equals the candidate case-insensitively, a fatal result
carries the human-readable description, and a non-fatal result is exactly
`(false, none)`. -/
theorem conflict_check_characterization (conn : Conn) (s : String) :
    (is_conflict_net conn none = (false, none)) ∧
    ((is_conflict_net conn (some s)).1 = true ↔
      ∃ g ∈ conn.guests, ∃ nm ∈ g.nicMacs, lowerStr (nm.getD "") = lowerStr s) ∧
    ((is_conflict_net conn (some s)).1 = true →
      is_conflict_net conn (some s) = (true, some (conflictMsg s))) ∧
    ((is_conflict_net conn (some s)).1 = false →
      is_conflict_net conn (some s) = (false, none)) := by
  refine ⟨rfl, ?_, ?_, ?_⟩
  · constructor
    · intro h1
      by_cases hc : (conn.guests.any fun vm => vm.nicMacs.any (nicMatches s)) = true
      · simpa [List.any_eq_true, nicMatches, beq_iff_eq] using hc
      · exfalso
        simp [is_conflict_net, hc] at h1
    · intro hex
      have hc : (conn.guests.any fun vm => vm.nicMacs.any (nicMatches s)) = true := by
        simpa [List.any_eq_true, nicMatches, beq_iff_eq] using hex
      simp [is_conflict_net, hc]
  · intro h1
    by_cases hc : (conn.guests.any fun vm => vm.nicMacs.any (nicMatches s)) = true
    · simp [is_conflict_net, hc]
    · exfalso
      simp [is_conflict_net, hc] at h1
  · intro h1
    by_cases hc : (conn.guests.any fun vm => vm.nicMacs.any (nicMatches s)) = true
    · exfalso
      simp [is_conflict_net, hc] at h1
    · simp [is_conflict_net, hc]

/-- C3 witness: the characterization applied to `conn1` and its guest's MAC. -/
theorem conflict_check_characterization_witness :
    is_conflict_net conn1 (some "aa:bb:cc:dd:ee:ff") =
      (true, some (conflictMsg "aa:bb:cc:dd:ee:ff")) :=
  (conflict_check_characterization conn1 "aa:bb:cc:dd:ee:ff").2.2.1 (by decide)

/-- C8 counterexample: after a successful construction with kind `bridge`,
calling the type setter changes the kind to `user`, so the kind is not
immutable. -/
theorem kind_mutable_after_construction :
    Except.map get_type
        (Except.bind (init conn0 none TYPE_BRIDGE none none none)
          (fun st => set_type st TYPE_USER)) = Except.ok (some TYPE_USER) ∧
    Except.map get_type (init conn0 none TYPE_BRIDGE none none none) =
      Except.ok (some TYPE_BRIDGE) := ⟨rfl, rfl⟩

/-- C8 (amended): the kind remains mutable after construction — `set_type`
replaces it with any member of the closed enum at any time, and rejects only
values outside the enum. -/
theorem set_type_post_construction (st : NetIface) (k : String) :
    (network_types.contains k = true →
      set_type st k = Except.ok { st with _type := some k }) ∧
    (network_types.contains k = false →
      set_type st k = Except.error ("Unknown network type " ++ k)) := by
  constructor
  · intro h
    simp only [set_type, h, if_true]
  · intro h
    simp only [set_type, h, Bool.false_eq_true, if_false]

/-- C8 witness: `set_type` on the constructed bridge object. -/
theorem set_type_post_construction_witness :
    set_type st1 TYPE_USER = Except.ok { st1 with _type := some TYPE_USER } ∧
    set_type st1 "foo" = Except.error ("Unknown network type " ++ "foo") :=
  ⟨(set_type_post_construction st1 TYPE_USER).1 (by decide),
   (set_type_post_construction st1 "foo").2 (by decide)⟩

/-- C9: every successful fresh construction stores the bridge argument in both
the `_bridge` field and the `_source_dev` field, whatever the kind. -/
theorem init_copies_bridge_to_source_dev (c : Conn) (mac : Option String)
    (ty : String) (b nw mdl : Option String) (st : NetIface)
    (h : init c mac ty b nw mdl = Except.ok st) :
    st._bridge = b ∧ st._source_dev = b := by
  rw [init_ok_shape c mac ty b nw mdl st h]
  exact ⟨rfl, rfl⟩

/-- C9 witness: construction with kind `user` and bridge `br0`. -/
theorem init_copies_bridge_to_source_dev_witness :
    stC9._bridge = some "br0" ∧ stC9._source_dev = some "br0" :=
  init_copies_bridge_to_source_dev conn0 none TYPE_USER (some "br0") none none
    stC9 rfl

/-- C5: fresh construction succeeds for every enum kind other than
virtual-network when no network name is given, always fails with the
missing-network error for the virtual-network kind without a network name, and
always fails for a kind outside the closed enum. -/
theorem construction_validation (c : Conn) (b mdl : Option String) :
    (∀ k, network_types.contains k = true → k ≠ TYPE_VIRTUAL →
      init c none k b none mdl =
        Except.ok { conn := c, isParse := false, _bridge := b,
                    _source_dev := b, _model := mdl, _type := some k }) ∧
    (init c none TYPE_VIRTUAL b none mdl =
      Except.error "A network name was not provided") ∧
    (∀ k, network_types.contains k = false →
      init c none k b none mdl = Except.error ("Unknown network type " ++ k)) := by
  refine ⟨?_, rfl, ?_⟩
  · intro k hk hkv
    have hbeq : ((some k : Option String) == some TYPE_VIRTUAL) = false :=
      beq_eq_false_iff_ne.mpr (fun h => hkv (Option.some.inj h))
    simp only [init, set_type, set_macaddr, validate_macaddr, set_bridge,
      set_source_dev, set_network, set_model, get_type, bind, Except.bind,
      hk, if_true, hbeq, Option.isNone_none, Bool.false_and,
      Bool.false_eq_true, if_false]
  · intro k hk
    simp only [init, set_type, bind, Except.bind, hk, Bool.false_eq_true,
      if_false]

/-- C5 witness: user-mode construction without a network succeeds; an unknown
kind is rejected. -/
theorem construction_validation_witness :
    init conn0 none TYPE_USER none none none =
      Except.ok { conn := conn0, isParse := false, _bridge := none,
                  _source_dev := none, _model := none, _type := some TYPE_USER } ∧
    init conn0 none "vif" none none none =
      Except.error ("Unknown network type " ++ "vif") :=
  ⟨(construction_validation conn0 none none).1 TYPE_USER (by decide) (by decide),
   (construction_validation conn0 none none).2.2 "vif" (by decide)⟩

/-- C2: on a non-test connection, if all of the next 256 synthesized
candidates conflict, generation returns `none` having consumed exactly 256
random triples (one per synthesis-plus-check attempt); and if `j < 256` is the
first attempt whose candidate passes the conflict check, generation returns
exactly that candidate. -/
theorem generate_mac_bounded (conn : Conn) (rs : RandState)
    (hpred : conn.predictable = false) :
    ((∀ i, i < 256 → conflictAt conn rs i = true) →
      generate_mac conn rs = (none, { rs with cursor := rs.cursor + 256 })) ∧
    (∀ j, j < 256 → (∀ i, i < j → conflictAt conn rs i = true) →
      conflictAt conn rs j = false →
      generate_mac conn rs =
        (some (randomMac conn (rs.stream (rs.cursor + j))),
         { rs with cursor := rs.cursor + j + 1 })) := by
  constructor
  · intro h
    rw [generate_mac, if_neg (by simp [hpred])]
    exact generate_mac_loop_all_conflict conn 256 rs h
  · intro j hj hconf hok
    rw [generate_mac, if_neg (by simp [hpred])]
    exact generate_mac_loop_first_success conn 256 j rs hj hconf hok

/-- C2 witness: exhaustion on `connAll`/`rs4` (every candidate conflicting)
and immediate success on the guestless `conn0`. -/
theorem generate_mac_bounded_witness :
    generate_mac connAll rs4 = (none, { rs4 with cursor := rs4.cursor + 256 }) ∧
    generate_mac conn0 rs0 =
      (some (randomMac conn0 (rs0.stream (rs0.cursor + 0))),
       { rs0 with cursor := rs0.cursor + 0 + 1 }) :=
  ⟨(generate_mac_bounded connAll rs4 rfl).1 connAll_conflict_lt,
   (generate_mac_bounded conn0 rs0 rfl).2 0 (by omega)
     (fun i hi => absurd hi (Nat.not_lt_zero i)) (by decide)⟩

/-- C4 counterexample: on the fresh object `st4` (no explicit MAC) over
`connAll`/`rs4`, the first generation run exhausts its 256 attempts, so the
first read of the MAC property returns `none`; the failure is not cached and
the second read returns a freshly generated address — the two reads differ. -/
theorem macaddr_reads_can_differ :
    (get_macaddr st4 rs4).1 = none ∧
    (get_macaddr (get_macaddr st4 rs4).2.1 (get_macaddr st4 rs4).2.2).1 =
      some "52:54:00:01:01:01" := by
  have hgen1 : generate_mac st4.conn rs4 =
      (none, { rs4 with cursor := rs4.cursor + 256 }) := generate_connAll_rs4
  have h1 := get_macaddr_fresh st4 rs4 rfl rfl rfl
  rw [hgen1] at h1
  constructor
  · rw [h1]
  · rw [h1]
    show (get_macaddr st4 { rs4 with cursor := rs4.cursor + 256 }).1 =
      some "52:54:00:01:01:01"
    have hgen2 : generate_mac st4.conn { rs4 with cursor := rs4.cursor + 256 } =
        (some "52:54:00:01:01:01", { rs4 with cursor := rs4.cursor + 256 + 1 }) :=
      generate_connAll_rs256
    have h2 := get_macaddr_fresh st4 { rs4 with cursor := rs4.cursor + 256 }
      rfl rfl rfl
    rw [hgen2] at h2
    rw [h2]

/-- C4 (amended): two reads of the MAC property on a fresh object with no
explicit MAC return identical values whenever the first read's generation
succeeds (the successful value is cached); only a failed generation, which
yields an absent first read, is retried and can produce a different second
value. -/
theorem macaddr_read_idempotent_on_success (st : NetIface) (rs : RandState)
    (h1 : truthy st._macaddr = false) (h2 : st.isParse = false)
    (h3 : st._random_mac = none) (m : String) (rs' : RandState)
    (hgen : generate_mac st.conn rs = (some m, rs')) (hm : m ≠ "") :
    (get_macaddr st rs).1 = some m ∧
    (get_macaddr (get_macaddr st rs).2.1 (get_macaddr st rs).2.2).1 = some m := by
  have h3' : truthy st._random_mac = false := by rw [h3]; rfl
  have hfst := get_macaddr_fresh st rs h1 h2 h3'
  simp only [hgen] at hfst
  refine ⟨by rw [hfst], ?_⟩
  rw [hfst]
  have hm' : truthy ({ st with _random_mac := some m } : NetIface)._random_mac
      = true := by
    simp [truthy, hm]
  rw [get_macaddr_cached { st with _random_mac := some m } rs' h1 h2 hm']

/-- C4 witness: on the predictable-test connection both reads return the fixed
test address. -/
theorem macaddr_read_idempotent_on_success_witness :
    (get_macaddr stP rs0).1 = some "00:11:22:33:44:55" ∧
    (get_macaddr (get_macaddr stP rs0).2.1 (get_macaddr stP rs0).2.2).1 =
      some "00:11:22:33:44:55" :=
  macaddr_read_idempotent_on_success stP rs0 rfl rfl rfl "00:11:22:33:44:55"
    rs0 rfl (by decide)

/-- C10: on a fresh object (no explicit MAC, not parsing, empty cache), a
generation returning `none` leaves the object unchanged, so the next read
attempts generation again; a generation returning a (non-empty) address caches
it, and every later read returns the cached address without consuming any
randomness. -/
theorem failed_generation_not_cached (st : NetIface) (rs : RandState)
    (h1 : truthy st._macaddr = false) (h2 : st.isParse = false)
    (h3 : st._random_mac = none) :
    (∀ rs', generate_mac st.conn rs = (none, rs') →
      get_macaddr st rs = (none, st, rs') ∧
      (get_macaddr st rs').1 = (generate_mac st.conn rs').1) ∧
    (∀ m rs', generate_mac st.conn rs = (some m, rs') → m ≠ "" →
      get_macaddr st rs = (some m, { st with _random_mac := some m }, rs') ∧
      ∀ rs2, get_macaddr { st with _random_mac := some m } rs2 =
        (some m, { st with _random_mac := some m }, rs2)) := by
  have h3' : truthy st._random_mac = false := by rw [h3]; rfl
  constructor
  · intro rs' hgen
    have hfst := get_macaddr_fresh st rs h1 h2 h3'
    simp only [hgen] at hfst
    have hst : ({ st with _random_mac := none } : NetIface) = st := by
      cases st
      simp_all
    rw [hst] at hfst
    refine ⟨hfst, ?_⟩
    rw [get_macaddr_fresh st rs' h1 h2 h3']
  · intro m rs' hgen hm
    have hfst := get_macaddr_fresh st rs h1 h2 h3'
    simp only [hgen] at hfst
    refine ⟨hfst, ?_⟩
    intro rs2
    have hm' : truthy ({ st with _random_mac := some m } : NetIface)._random_mac
        = true := by
      simp [truthy, hm]
    exact get_macaddr_cached { st with _random_mac := some m } rs2 h1 h2 hm'

/-- C10 witness: the exhausting run on `st4` is retried on the next read; the
successful run on the predictable connection is cached and stable. -/
theorem failed_generation_not_cached_witness :
    (get_macaddr st4 rs4 = (none, st4, { rs4 with cursor := rs4.cursor + 256 }) ∧
      (get_macaddr st4 { rs4 with cursor := rs4.cursor + 256 }).1 =
        (generate_mac st4.conn { rs4 with cursor := rs4.cursor + 256 }).1) ∧
    (get_macaddr stP rs0 =
        (some "00:11:22:33:44:55",
         { stP with _random_mac := some "00:11:22:33:44:55" }, rs0) ∧
      ∀ rs2, get_macaddr { stP with _random_mac := some "00:11:22:33:44:55" } rs2 =
        (some "00:11:22:33:44:55",
         { stP with _random_mac := some "00:11:22:33:44:55" }, rs2)) :=
  ⟨(failed_generation_not_cached st4 rs4 rfl rfl rfl).1
      { rs4 with cursor := rs4.cursor + 256 } generate_connAll_rs4,
   (failed_generation_not_cached stP rs0 rfl rfl rfl).2 "00:11:22:33:44:55"
      rs0 rfl (by decide)⟩

set_option maxRecDepth 4000 in
/-- C6: rendering the freshly constructed bridge object with bridge `br0`,
explicit MAC `52:54:00:ab:cd:ef` and model `virtio` yields, up to
indentation/line breaks, exactly the claimed fragment; in general the mac
element is always part of the output, and when neither model nor target is
set the output consists of exactly the header, the source element, the mac
element and the footer. -/
theorem render_bridge_roundtrip :
    (init conn0 (some "52:54:00:ab:cd:ef") TYPE_BRIDGE (some "br0") none
        (some "virtio") = Except.ok stC6 ∧
      stripLines (_get_xml_config stC6 rs0).1 =
        "<interface type='bridge'><source bridge='br0'/><mac address='52:54:00:ab:cd:ef'/><model type='virtio'/></interface>") ∧
    (∀ st rs, ∃ pre post, (_get_xml_config st rs).1 =
      pre ++ ("      <mac address='"
        ++ pyStr (get_macaddr (src_xml st).2 rs).1 ++ "'/>\n") ++ post) ∧
    (∀ st rs, truthy st._model = false → truthy st._target_dev = false →
      (_get_xml_config st rs).1 =
        "    <interface type='" ++ pyStr (get_type (src_xml st).2) ++ "'>\n"
          ++ (src_xml st).1
          ++ ("      <mac address='" ++ pyStr (get_macaddr (src_xml st).2 rs).1
              ++ "'/>\n")
          ++ "    </interface>") := by
  refine ⟨⟨rfl, by decide⟩, ?_, ?_⟩
  · intro st rs
    refine ⟨"    <interface type='" ++ pyStr (get_type (src_xml st).2) ++ "'>\n"
        ++ (src_xml st).1,
      (if truthy (src_xml st).2._target_dev then
        "      <target dev='" ++ pyStr (src_xml st).2._target_dev ++ "'/>\n"
       else "")
      ++ (if truthy (src_xml st).2._model then
        "      <model type='" ++ pyStr (src_xml st).2._model ++ "'/>\n"
       else "")
      ++ "    </interface>", ?_⟩
    simp [_get_xml_config, String.append_assoc]
  · intro st rs hm ht
    have hm2 : truthy (src_xml st).2._model = false := by
      rcases src_xml_state st with h | h <;> rw [h] <;> exact hm
    have ht2 : truthy (src_xml st).2._target_dev = false := by
      rcases src_xml_state st with h | h <;> rw [h] <;> exact ht
    simp [_get_xml_config, hm2, ht2, String.append_assoc]

/-- C6 witness: the model- and target-free shape instantiated on the user-mode
object `stT`. -/
theorem render_bridge_roundtrip_witness :
    (_get_xml_config stT rs0).1 =
      "    <interface type='" ++ pyStr (get_type (src_xml stT).2) ++ "'>\n"
        ++ (src_xml stT).1
        ++ ("      <mac address='" ++ pyStr (get_macaddr (src_xml stT).2 rs0).1
            ++ "'/>\n")
        ++ "    </interface>" :=
  render_bridge_roundtrip.2.2 stT rs0 rfl rfl

/-- C7 counterexample: with kind virtual-network, writing through the
kind-aware source accessor goes through network validation and can fail, so
setting a value and then reading `network` does not in general yield the value
just set: on `st7` (whose connection knows only the network `default`) setting
`foo` raises and the network field keeps its old value. -/
theorem set_source_can_reject :
    set_source st7 (some "foo") =
      Except.error ("Virtual network 'foo' does not exist.") ∧
    st7._network = some "default" := ⟨rfl, rfl⟩

/-- C7 (amended): with kind virtual-network, a source write that passes
network validation (absent value, or a name defined and active on the
connection) stores the value in the network field, agreeing with
`set_network`, and reading source afterwards returns it; with kind user-mode,
reading source gives absent and writing is a no-op; with a kind matching no
known case, reading source returns the first truthy of network, bridge and
physical device name (else the device-name value). -/
theorem source_accessor_dispatch (st : NetIface) (v : Option String) :
    (get_type st = some TYPE_VIRTUAL →
      (v = none ∨ ∃ n, v = some n ∧ st.conn.definedNetworks.contains n = true ∧
        st.conn.activeNetworks.contains n = true) →
      set_source st v = Except.ok { st with _network := v } ∧
      set_network st v = Except.ok { st with _network := v } ∧
      (get_source { st with _network := v }).1 = v) ∧
    (get_type st = some TYPE_USER →
      (get_source st).1 = none ∧ set_source st v = Except.ok st) ∧
    ((∀ t ∈ network_types, get_type st ≠ some t) →
      (get_source st).1 =
        (if truthy st._network then st._network
         else if truthy st._bridge then st._bridge else st._source_dev)) := by
  refine ⟨?_, ?_, ?_⟩
  · intro hty hv
    have hset : set_network st v = Except.ok { st with _network := v } := by
      rcases hv with rfl | ⟨n, rfl, hd, ha⟩
      · rfl
      · simp only [set_network, hd, ha, eq_self_iff_true, if_true]
    have hbeq : (get_type st == some TYPE_VIRTUAL) = true := by
      rw [hty]; rfl
    have hty' : get_type ({ st with _network := v } : NetIface)
        = some TYPE_VIRTUAL := hty
    refine ⟨?_, hset, ?_⟩
    · simp only [set_source, hbeq, if_true]
      exact hset
    · simp [get_source, hty', TYPE_VIRTUAL]
  · intro hty
    have h1 : (get_type st == some TYPE_VIRTUAL) = false := by rw [hty]; rfl
    have h2 : (get_type st == some TYPE_BRIDGE) = false := by rw [hty]; rfl
    have h3 : (get_type st == some TYPE_ETHERNET) = false := by rw [hty]; rfl
    have h4 : (get_type st == some TYPE_DIRECT) = false := by rw [hty]; rfl
    have h5 : (get_type st == some TYPE_USER) = true := by rw [hty]; rfl
    constructor
    · simp [get_source, h1, h2, h3, h4, h5]
    · simp [set_source, h1, h2, h3, h4]
  · intro hty
    have h1 : (get_type st == some TYPE_VIRTUAL) = false :=
      beq_eq_false_iff_ne.mpr (hty TYPE_VIRTUAL (by decide))
    have h2 : (get_type st == some TYPE_BRIDGE) = false :=
      beq_eq_false_iff_ne.mpr (hty TYPE_BRIDGE (by decide))
    have h3 : (get_type st == some TYPE_ETHERNET) = false :=
      beq_eq_false_iff_ne.mpr (hty TYPE_ETHERNET (by decide))
    have h4 : (get_type st == some TYPE_DIRECT) = false :=
      beq_eq_false_iff_ne.mpr (hty TYPE_DIRECT (by decide))
    have h5 : (get_type st == some TYPE_USER) = false :=
      beq_eq_false_iff_ne.mpr (hty TYPE_USER (by decide))
    have hgb : get_bridge st = (st._bridge, st) := by
      simp [get_bridge, h2]
    by_cases hn : truthy st._network
    · simp [get_source, h1, h2, h3, h4, h5, hn]
    · by_cases hb : truthy st._bridge
      · simp [get_source, h1, h2, h3, h4, h5, hn, hb, hgb]
      · simp [get_source, h1, h2, h3, h4, h5, hn, hb, hgb]

/-- C7 witness: a validated virtual-network write on `st7`, the user-mode
behaviour on `stT`, and the fallback on the transitional object `stF`. -/
theorem source_accessor_dispatch_witness :
    (set_source st7 (some "default") =
        Except.ok { st7 with _network := some "default" } ∧
      set_network st7 (some "default") =
        Except.ok { st7 with _network := some "default" } ∧
      (get_source { st7 with _network := some "default" }).1 = some "default") ∧
    ((get_source stT).1 = none ∧ set_source stT none = Except.ok stT) ∧
    (get_source stF).1 =
      (if truthy stF._network then stF._network
       else if truthy stF._bridge then stF._bridge else stF._source_dev) :=
  ⟨(source_accessor_dispatch st7 (some "default")).1 rfl
      (Or.inr ⟨"default", rfl, rfl, rfl⟩),
   (source_accessor_dispatch stT none).2.1 rfl,
   (source_accessor_dispatch stF none).2.2 (by decide)⟩

end VNet
